import Mathlib

/-!
Verification of the fragment-to-document completion engine of
`tools/extract_musicxml_fragments.py` (repository sonovice/tusk).

The Python source is shallowly embedded: strings are Lean `String`
(a wrapper around `List Char`), Python `None`-returning functions become
`Option`-valued Lean functions, and the category tables become
`List String` constants, copied verbatim from the source.  Text is
treated at the level of Unicode code points, matching Python `str`.
-/

set_option maxRecDepth 100000

namespace Tusk

/-- Whitespace characters recognized by Python's `str.strip` / `str.isspace`
(ASCII whitespace, the C1 control spaces, and the Unicode space separators). -/
def pyIsSpace (c : Char) : Bool :=
  c = ' ' || c = '\t' || c = '\n' || c = '\x0d' || c = '\x0b' || c = '\x0c' ||
  c = '\x1c' || c = '\x1d' || c = '\x1e' || c = '\x1f' || c = '\x85' || c = '\xa0' ||
  c = ' ' || (' ' ≤ c && c ≤ ' ') || c = ' ' || c = ' ' ||
  c = ' ' || c = ' ' || c = '　'

/-- Python `s.strip()` on a list of characters: drop whitespace from both ends. -/
def pyStripL (l : List Char) : List Char :=
  ((l.dropWhile pyIsSpace).reverse.dropWhile pyIsSpace).reverse

/-- Python `s.strip()` on strings. -/
def pyStrip (s : String) : String :=
  String.mk (pyStripL s.data)

/-- A character matching the regex class `[a-z0-9-]` under `re.IGNORECASE`:
the characters that may continue a tag name in `get_root_element`. -/
def isTagChar (c : Char) : Bool :=
  c.isAlpha || c.isDigit || c = '-'

/-- The scanning loop of `re.search(r'<([a-z][a-z0-9-]*)', xml, re.IGNORECASE)`:
find the leftmost `<` that is immediately followed by an ASCII letter and
return that letter together with the maximal following run of `[a-z0-9-]`
(case-insensitive) characters; `none` when no such position exists. -/
def scanTag : List Char → Option (List Char)
  | [] => none
  | '<' :: c :: rest =>
      if c.isAlpha then some (c :: rest.takeWhile isTagChar)
      else scanTag (c :: rest)
  | _ :: rest => scanTag rest

/-- Embedding of `get_root_element` (extract_musicxml_fragments.py, lines 117-123):
the root element name of an XML fragment, or `none` when the regex finds no match. -/
def get_root_element (xml : String) : Option String :=
  (scanTag xml.data).map String.mk

/-- Python `content.split('\n')` on a list of characters. -/
def splitNl : List Char → List (List Char)
  | [] => [[]]
  | c :: rest =>
      if c = '\n' then [] :: splitNl rest
      else
        match splitNl rest with
        | [] => [[c]]
        | l :: ls => (c :: l) :: ls

/-- Python `'\n'.join(lines)` on lists of characters. -/
def joinNl : List (List Char) → List Char
  | [] => []
  | l :: ls =>
      match ls with
      | [] => l
      | _ :: _ => l ++ '\n' :: joinNl ls

/-- Embedding of `indent_content` (extract_musicxml_fragments.py, lines 126-130):
split into lines, prefix `spaces` spaces to each line whose `strip()` is
truthy (non-empty), and rejoin with newlines. -/
def indent_content (content : String) (spaces : Nat) : String :=
  String.mk (joinNl ((splitNl content.data).map (fun line =>
    if pyStripL line ≠ [] then List.replicate spaces ' ' ++ line else line)))

/-- Elements that go inside a measure (`MEASURE_CONTENT_ELEMENTS`, lines 81-84). -/
def MEASURE_CONTENT_ELEMENTS : List String :=
  ["note", "forward", "backup", "direction", "attributes", "harmony",
   "figured-bass", "print", "sound", "listening", "barline", "grouping", "link", "bookmark"]

/-- Elements that go inside a note (`NOTE_CONTENT_ELEMENTS`, lines 87-92). -/
def NOTE_CONTENT_ELEMENTS : List String :=
  ["pitch", "unpitched", "rest", "duration", "tie", "voice", "type",
   "dot", "accidental", "time-modification", "stem", "notehead", "notehead-text",
   "beam", "notations", "lyric", "play", "listen", "instrument", "footnote", "level",
   "staff", "cue", "grace", "chord"]

/-- Elements inside notations (`NOTATION_ELEMENTS`, lines 95-99). -/
def NOTATION_ELEMENTS : List String :=
  ["tied", "slur", "tuplet", "glissando", "slide", "ornaments", "technical",
   "articulations", "dynamics", "fermata", "arpeggiate", "non-arpeggiate",
   "accidental-mark", "other-notation"]

/-- Articulation elements (`ARTICULATION_ELEMENTS`, lines 102-106). -/
def ARTICULATION_ELEMENTS : List String :=
  ["accent", "strong-accent", "staccato", "tenuto", "detached-legato",
   "staccatissimo", "spiccato", "scoop", "plop", "doit", "falloff",
   "breath-mark", "caesura", "stress", "unstress", "soft-accent", "other-articulation"]

/-- Direction type elements (`DIRECTION_TYPE_ELEMENTS`, lines 109-114). -/
def DIRECTION_TYPE_ELEMENTS : List String :=
  ["rehearsal", "segno", "coda", "words", "symbol", "wedge", "dynamics",
   "dashes", "bracket", "pedal", "metronome", "octave-shift", "harp-pedals",
   "damp", "damp-all", "eyeglasses", "string-mute", "scordatura", "image",
   "principal-voice", "percussion", "accordion-registration", "staff-divide", "other-direction"]

/-- The tuple of non-MusicXML roots skipped by `wrap_fragment` (lines 144-145):
container, opus and sounds schema elements. -/
def SKIP_NON_MUSICXML : List String :=
  ["container", "rootfiles", "rootfile", "opus", "opus-reference",
   "sounds", "sound", "play", "instrument-sound", "solo", "ensemble"]

/-- The tuple of attribute-section roots (line 227). -/
def ATTRIBUTE_SECTION_ELEMENTS : List String :=
  ["key", "time", "clef", "staves", "instruments", "transpose", "divisions"]

/-- The tuple of part-list roots (lines 242-244). -/
def PART_LIST_ELEMENTS : List String :=
  ["part-list", "score-part", "part-name", "part-abbreviation", "part-group",
   "group-name", "group-symbol", "group-barline", "score-instrument",
   "midi-device", "midi-instrument", "virtual-instrument"]

/-- The tuple of header/metadata roots (lines 268-271). -/
def HEADER_ELEMENTS : List String :=
  ["work", "work-title", "work-number", "opus", "movement-number",
   "movement-title", "identification", "creator", "rights", "encoding",
   "source", "relation", "miscellaneous", "defaults", "credit",
   "credit-type", "credit-image", "credit-words", "credit-symbol"]

/-- `SCORE_WRAPPER.format(content=content)` (template at lines 50-60). -/
def SCORE_WRAPPER_format (content : String) : String :=
  "<?xml version=\"1.0\" encoding=\"UTF-8\"?>\n<score-partwise version=\"4.1\">\n  <part-list>\n    <score-part id=\"P1\">\n      <part-name>Part 1</part-name>\n    </score-part>\n  </part-list>\n  <part id=\"P1\">\n"
  ++ content ++ "\n  </part>\n</score-partwise>"

/-- `MEASURE_WRAPPER.format(content=content)` (template at lines 62-78). -/
def MEASURE_WRAPPER_format (content : String) : String :=
  "    <measure number=\"1\">\n      <attributes>\n        <divisions>24</divisions>\n        <key>\n          <fifths>0</fifths>\n        </key>\n        <time>\n          <beats>4</beats>\n          <beat-type>4</beat-type>\n        </time>\n        <clef>\n          <sign>G</sign>\n          <line>2</line>\n        </clef>\n      </attributes>\n"
  ++ content ++ "\n    </measure>"

/-- The note body built for pitch/unpitched/rest roots (lines 177-181). -/
def noteReplacingPitch (xml : String) : String :=
  "      <note>\n" ++ indent_content (pyStrip xml) 8
  ++ "\n        <duration>4</duration>\n        <type>quarter</type>\n      </note>"

/-- The note body built for roots appended after a default pitch
(lines 184-192, also reused verbatim for the `notations` root, lines 215-223). -/
def noteAppending (xml : String) : String :=
  "      <note>\n        <pitch>\n          <step>C</step>\n          <octave>4</octave>\n        </pitch>\n        <duration>4</duration>\n        <type>quarter</type>\n"
  ++ indent_content (pyStrip xml) 8 ++ "\n      </note>"

/-- Embedding of `wrap_fragment` (extract_musicxml_fragments.py, lines 133-279):
wrap an XML fragment in complete MusicXML structure, `none` when the fragment
is refused. The `example_name` parameter is accepted and, as in the source,
never used. -/
def wrap_fragment (xml _example_name : String) : Option String :=
  match get_root_element xml with
  | none => none
  | some root =>
    if root ∈ ["score-partwise", "score-timewise"] then none
    else if root ∈ SKIP_NON_MUSICXML then none
    else if root = "measure" then
      some (SCORE_WRAPPER_format (indent_content (pyStrip xml) 4))
    else if root = "part" then
      some ("<?xml version=\"1.0\" encoding=\"UTF-8\"?>\n<score-partwise version=\"4.1\">\n  <part-list>\n    <score-part id=\"P1\">\n      <part-name>Part 1</part-name>\n    </score-part>\n  </part-list>\n"
            ++ pyStrip xml ++ "\n</score-partwise>")
    else if root ∈ MEASURE_CONTENT_ELEMENTS then
      some (SCORE_WRAPPER_format (MEASURE_WRAPPER_format (indent_content (pyStrip xml) 6)))
    else if root ∈ NOTE_CONTENT_ELEMENTS ∨ root ∈ NOTATION_ELEMENTS ∨ root ∈ ARTICULATION_ELEMENTS then
      if root ∈ ["pitch", "unpitched", "rest"] then
        some (SCORE_WRAPPER_format (MEASURE_WRAPPER_format (noteReplacingPitch xml)))
      else
        some (SCORE_WRAPPER_format (MEASURE_WRAPPER_format (noteAppending xml)))
    else if root ∈ DIRECTION_TYPE_ELEMENTS then
      some (SCORE_WRAPPER_format (MEASURE_WRAPPER_format
        ("      <direction>\n        <direction-type>\n" ++ indent_content (pyStrip xml) 10
         ++ "\n        </direction-type>\n      </direction>")))
    else if root = "direction-type" then
      some (SCORE_WRAPPER_format (MEASURE_WRAPPER_format
        ("      <direction>\n" ++ indent_content (pyStrip xml) 8 ++ "\n      </direction>")))
    else if root = "notations" then
      some (SCORE_WRAPPER_format (MEASURE_WRAPPER_format (noteAppending xml)))
    else if root ∈ ATTRIBUTE_SECTION_ELEMENTS then
      some (SCORE_WRAPPER_format
        ("    <measure number=\"1\">\n      <attributes>\n" ++ indent_content (pyStrip xml) 8
         ++ "\n      </attributes>\n      <note>\n        <pitch><step>C</step><octave>4</octave></pitch>\n        <duration>4</duration>\n        <type>quarter</type>\n      </note>\n    </measure>"))
    else if root ∈ PART_LIST_ELEMENTS then
      some "<?xml version=\"1.0\" encoding=\"UTF-8\"?>\n<score-partwise version=\"4.1\">\n  <part-list>\n    <score-part id=\"P1\">\n      <part-name>Part 1</part-name>\n    </score-part>\n  </part-list>\n  <part id=\"P1\">\n    <measure number=\"1\">\n      <attributes>\n        <divisions>1</divisions>\n      </attributes>\n      <note>\n        <pitch><step>C</step><octave>4</octave></pitch>\n        <duration>4</duration>\n        <type>whole</type>\n      </note>\n    </measure>\n  </part>\n</score-partwise>"
    else if root ∈ HEADER_ELEMENTS then none
    else
      some (SCORE_WRAPPER_format (MEASURE_WRAPPER_format (indent_content (pyStrip xml) 6)))

/-- Whether the text contains a `<` immediately followed by an ASCII letter,
i.e. whether the classifier regex has any match at all. -/
def hasTagStart : List Char → Bool
  | [] => false
  | '<' :: c :: rest => c.isAlpha || hasTagStart (c :: rest)
  | _ :: rest => hasTagStart rest

/-- Does position `i` of `cs` begin a classifier match, i.e. a `<` immediately
followed by an ASCII letter? -/
def matchesAt (cs : List Char) (i : Nat) : Bool :=
  match cs.drop i with
  | '<' :: c :: _ => c.isAlpha
  | _ => false

/-- The tag name captured by a classifier match at position `i` of `cs`:
the letter after the `<` together with the maximal run of tag-name characters. -/
def tagAt (cs : List Char) (i : Nat) : List Char :=
  match cs.drop i with
  | '<' :: c :: rest => c :: rest.takeWhile isTagChar
  | _ => []

/-- Modelled from the spec: "return the first element tag name encountered by
scanning for the first `<` followed by a letter, up to the next non-tag-name
character, case-insensitively" — the leftmost matching position wins, and the
captured characters are returned. -/
def firstTagByScan (cs : List Char) : Option (List Char) :=
  ((List.range cs.length).find? (matchesAt cs)).map (tagAt cs)

/-- The nine category collections named by the specification's Category Table:
measure-content, note-content, notation-content, articulation-content,
direction-type-content, the non-target unrelated-grammar tuple, the
attribute-section tuple, the part-list tuple and the header/metadata tuple. -/
def categorySets : List (List String) :=
  [MEASURE_CONTENT_ELEMENTS, NOTE_CONTENT_ELEMENTS, NOTATION_ELEMENTS,
   ARTICULATION_ELEMENTS, DIRECTION_TYPE_ELEMENTS, SKIP_NON_MUSICXML,
   ATTRIBUTE_SECTION_ELEMENTS, PART_LIST_ELEMENTS, HEADER_ELEMENTS]

/-- C1 (counterexample): the Category Table collections are not pairwise
disjoint — the tag "sound" lies in both the measure-content set and the
unrelated-grammar tuple, refuting the claimed static disjointness of the
mutually exclusive branch sets. -/
theorem category_sets_not_disjoint_cex :
    "sound" ∈ MEASURE_CONTENT_ELEMENTS ∧ "sound" ∈ SKIP_NON_MUSICXML ∧
    ¬ List.Pairwise (fun s t => ∀ x ∈ s, x ∉ t) categorySets := by
  decide

/-- C1 (amended): the pairwise intersections of the nine category collections
are, exhaustively: empty for thirty-two of the thirty-six pairs, and the
singletons "sound" (measure-content ∩ unrelated-grammar), "play"
(note-content ∩ unrelated-grammar), "dynamics" (notation ∩ direction-type)
and "opus" (unrelated-grammar ∩ header/metadata) for the remaining four.
Hence every other pair of collections is disjoint, and each of the four
shared tags occurs in exactly the two collections named (a third membership
would make one of the empty intersections non-empty). -/
theorem category_sets_overlap_exactly_four :
    MEASURE_CONTENT_ELEMENTS.inter NOTE_CONTENT_ELEMENTS = [] ∧
    MEASURE_CONTENT_ELEMENTS.inter NOTATION_ELEMENTS = [] ∧
    MEASURE_CONTENT_ELEMENTS.inter ARTICULATION_ELEMENTS = [] ∧
    MEASURE_CONTENT_ELEMENTS.inter DIRECTION_TYPE_ELEMENTS = [] ∧
    MEASURE_CONTENT_ELEMENTS.inter SKIP_NON_MUSICXML = ["sound"] ∧
    MEASURE_CONTENT_ELEMENTS.inter ATTRIBUTE_SECTION_ELEMENTS = [] ∧
    MEASURE_CONTENT_ELEMENTS.inter PART_LIST_ELEMENTS = [] ∧
    MEASURE_CONTENT_ELEMENTS.inter HEADER_ELEMENTS = [] ∧
    NOTE_CONTENT_ELEMENTS.inter NOTATION_ELEMENTS = [] ∧
    NOTE_CONTENT_ELEMENTS.inter ARTICULATION_ELEMENTS = [] ∧
    NOTE_CONTENT_ELEMENTS.inter DIRECTION_TYPE_ELEMENTS = [] ∧
    NOTE_CONTENT_ELEMENTS.inter SKIP_NON_MUSICXML = ["play"] ∧
    NOTE_CONTENT_ELEMENTS.inter ATTRIBUTE_SECTION_ELEMENTS = [] ∧
    NOTE_CONTENT_ELEMENTS.inter PART_LIST_ELEMENTS = [] ∧
    NOTE_CONTENT_ELEMENTS.inter HEADER_ELEMENTS = [] ∧
    NOTATION_ELEMENTS.inter ARTICULATION_ELEMENTS = [] ∧
    NOTATION_ELEMENTS.inter DIRECTION_TYPE_ELEMENTS = ["dynamics"] ∧
    NOTATION_ELEMENTS.inter SKIP_NON_MUSICXML = [] ∧
    NOTATION_ELEMENTS.inter ATTRIBUTE_SECTION_ELEMENTS = [] ∧
    NOTATION_ELEMENTS.inter PART_LIST_ELEMENTS = [] ∧
    NOTATION_ELEMENTS.inter HEADER_ELEMENTS = [] ∧
    ARTICULATION_ELEMENTS.inter DIRECTION_TYPE_ELEMENTS = [] ∧
    ARTICULATION_ELEMENTS.inter SKIP_NON_MUSICXML = [] ∧
    ARTICULATION_ELEMENTS.inter ATTRIBUTE_SECTION_ELEMENTS = [] ∧
    ARTICULATION_ELEMENTS.inter PART_LIST_ELEMENTS = [] ∧
    ARTICULATION_ELEMENTS.inter HEADER_ELEMENTS = [] ∧
    DIRECTION_TYPE_ELEMENTS.inter SKIP_NON_MUSICXML = [] ∧
    DIRECTION_TYPE_ELEMENTS.inter ATTRIBUTE_SECTION_ELEMENTS = [] ∧
    DIRECTION_TYPE_ELEMENTS.inter PART_LIST_ELEMENTS = [] ∧
    DIRECTION_TYPE_ELEMENTS.inter HEADER_ELEMENTS = [] ∧
    SKIP_NON_MUSICXML.inter ATTRIBUTE_SECTION_ELEMENTS = [] ∧
    SKIP_NON_MUSICXML.inter PART_LIST_ELEMENTS = [] ∧
    SKIP_NON_MUSICXML.inter HEADER_ELEMENTS = ["opus"] ∧
    ATTRIBUTE_SECTION_ELEMENTS.inter PART_LIST_ELEMENTS = [] ∧
    ATTRIBUTE_SECTION_ELEMENTS.inter HEADER_ELEMENTS = [] ∧
    PART_LIST_ELEMENTS.inter HEADER_ELEMENTS = [] := by
  decide

/-- C3: a fragment whose root classifies as "sound" or "play" is refused by
`wrap_fragment` — the unrelated-grammar check precedes the content branches —
even though "sound" is a measure-content tag and "play" a note-content tag. -/
theorem wrap_fragment_sound_play_refused (xml name : String)
    (h : get_root_element xml = some "sound" ∨ get_root_element xml = some "play") :
    wrap_fragment xml name = none ∧
    "sound" ∈ MEASURE_CONTENT_ELEMENTS ∧ "play" ∈ NOTE_CONTENT_ELEMENTS := by
  refine ⟨?_, by decide, by decide⟩
  rcases h with h | h <;> (unfold wrap_fragment; rw [h]; rfl)

/-- C3 witness: the concrete fragments `<sound tempo="120"/>` and `<play/>`
are both refused. -/
theorem wrap_fragment_sound_play_refused_witness :
    wrap_fragment "<sound tempo=\"120\"/>" "ex" = none ∧
    wrap_fragment "<play/>" "ex" = none :=
  ⟨(wrap_fragment_sound_play_refused "<sound tempo=\"120\"/>" "ex" (Or.inl (by decide))).1,
   (wrap_fragment_sound_play_refused "<play/>" "ex" (Or.inr (by decide))).1⟩

/-- C4: when the classified root tag is "measure", `wrap_fragment` returns
exactly the standard score/part-roster scaffold with the stripped fragment
re-indented by four spaces and spliced directly under the part element — no
measure element is synthesized around it and no attributes preamble
(divisions/key/time/clef) is injected. -/
theorem wrap_fragment_measure_splice (xml name : String)
    (h : get_root_element xml = some "measure") :
    wrap_fragment xml name = some (SCORE_WRAPPER_format (indent_content (pyStrip xml) 4)) := by
  unfold wrap_fragment; rw [h]; rfl

/-- C4 witness: a concrete measure fragment, with the resulting document
spelled out — the fragment's measure is the only measure and no
divisions/key/time/clef preamble appears. -/
theorem wrap_fragment_measure_splice_witness :
    wrap_fragment "<measure number=\"1\">\n  <note/>\n</measure>" "ex"
      = some "<?xml version=\"1.0\" encoding=\"UTF-8\"?>\n<score-partwise version=\"4.1\">\n  <part-list>\n    <score-part id=\"P1\">\n      <part-name>Part 1</part-name>\n    </score-part>\n  </part-list>\n  <part id=\"P1\">\n    <measure number=\"1\">\n      <note/>\n    </measure>\n  </part>\n</score-partwise>" :=
  (wrap_fragment_measure_splice "<measure number=\"1\">\n  <note/>\n</measure>" "ex"
    (by decide)).trans (by decide)

/-- C5: the fragment `<pitch><step>C</step></pitch>` classifies as tag "pitch"
(as does any extension of it by further text), and wrapping it yields the
document in which the synthesized note's first child is the fragment's pitch
content — replacing the default pitch — followed by the fixed trailing
`<duration>4</duration>` and `<type>quarter</type>` elements. -/
theorem wrap_fragment_pitch_example (name : String) :
    get_root_element "<pitch><step>C</step></pitch>" = some "pitch" ∧
    wrap_fragment "<pitch><step>C</step></pitch>" name
      = some "<?xml version=\"1.0\" encoding=\"UTF-8\"?>\n<score-partwise version=\"4.1\">\n  <part-list>\n    <score-part id=\"P1\">\n      <part-name>Part 1</part-name>\n    </score-part>\n  </part-list>\n  <part id=\"P1\">\n    <measure number=\"1\">\n      <attributes>\n        <divisions>24</divisions>\n        <key>\n          <fifths>0</fifths>\n        </key>\n        <time>\n          <beats>4</beats>\n          <beat-type>4</beat-type>\n        </time>\n        <clef>\n          <sign>G</sign>\n          <line>2</line>\n        </clef>\n      </attributes>\n      <note>\n        <pitch><step>C</step></pitch>\n        <duration>4</duration>\n        <type>quarter</type>\n      </note>\n    </measure>\n  </part>\n</score-partwise>" ∧
    ("      <note>\n        <pitch><step>C</step></pitch>\n        <duration>4</duration>\n        <type>quarter</type>\n      </note>").data
      <:+: (SCORE_WRAPPER_format (MEASURE_WRAPPER_format
             (noteReplacingPitch "<pitch><step>C</step></pitch>"))).data := by
  refine ⟨by decide, ?_, by decide⟩
  unfold wrap_fragment
  rw [show get_root_element "<pitch><step>C</step></pitch>" = some "pitch" from by decide]
  decide

/-- C6: every header/metadata root tag is refused by `wrap_fragment`,
whatever the fragment content: no document is ever produced for those tags. -/
theorem wrap_fragment_header_refused (tag xml name : String)
    (hmem : tag ∈ HEADER_ELEMENTS) (h : get_root_element xml = some tag) :
    wrap_fragment xml name = none := by
  unfold wrap_fragment; rw [h]
  simp only [HEADER_ELEMENTS] at hmem
  fin_cases hmem <;> rfl

/-- C6 witness: the concrete header fragment `<work>...</work>` is refused. -/
theorem wrap_fragment_header_refused_witness :
    ("work" ∈ HEADER_ELEMENTS) ∧
    wrap_fragment "<work><work-title>T</work-title></work>" "ex" = none :=
  ⟨by decide,
   wrap_fragment_header_refused "work" "<work><work-title>T</work-title></work>" "ex"
     (by decide) (by decide)⟩

/-- C7: a classified root tag lying outside every category set and distinct
from every special-cased literal tag is not refused: `wrap_fragment` falls back
to the measure-content strategy, returning the fragment re-indented to
measure-content depth inside one synthesized measure (with the fixed attributes
preamble) under the standard scaffold. -/
theorem wrap_fragment_fallback_wraps (xml name root : String)
    (h : get_root_element xml = some root)
    (h1 : root ∉ (["score-partwise", "score-timewise"] : List String))
    (h2 : root ∉ SKIP_NON_MUSICXML)
    (h3 : root ≠ "measure") (h4 : root ≠ "part")
    (h5 : root ∉ MEASURE_CONTENT_ELEMENTS)
    (h6 : root ∉ NOTE_CONTENT_ELEMENTS) (h7 : root ∉ NOTATION_ELEMENTS)
    (h8 : root ∉ ARTICULATION_ELEMENTS)
    (h9 : root ∉ DIRECTION_TYPE_ELEMENTS)
    (h10 : root ≠ "direction-type") (h11 : root ≠ "notations")
    (h12 : root ∉ ATTRIBUTE_SECTION_ELEMENTS)
    (h13 : root ∉ PART_LIST_ELEMENTS)
    (h14 : root ∉ HEADER_ELEMENTS) :
    wrap_fragment xml name
      = some (SCORE_WRAPPER_format (MEASURE_WRAPPER_format (indent_content (pyStrip xml) 6))) := by
  simp only [wrap_fragment, h]
  rw [if_neg h1, if_neg h2, if_neg h3, if_neg h4, if_neg h5,
      if_neg (fun hor => hor.elim h6 (fun hor2 => hor2.elim h7 h8)),
      if_neg h9, if_neg h10, if_neg h11, if_neg h12, if_neg h13, if_neg h14]

/-- C7 witness: the unknown tag "foo-bar" is wrapped by the fallback
measure-content strategy rather than refused. -/
theorem wrap_fragment_fallback_wraps_witness :
    wrap_fragment "<foo-bar>z</foo-bar>" "ex"
      = some (SCORE_WRAPPER_format (MEASURE_WRAPPER_format
          (indent_content (pyStrip "<foo-bar>z</foo-bar>") 6))) :=
  wrap_fragment_fallback_wraps "<foo-bar>z</foo-bar>" "ex" "foo-bar" (by decide)
    (by decide) (by decide) (by decide) (by decide) (by decide) (by decide)
    (by decide) (by decide) (by decide) (by decide) (by decide) (by decide)
    (by decide) (by decide)

/-- C9: the pipeline is deterministic and the example identifier does not
influence the output: classifying the same fragment twice yields the same tag,
wrapping the same pair twice yields identical results, and wrapping the same
fragment under any two identifiers yields equal outputs. -/
theorem pipeline_deterministic_name_independent (xml name₁ name₂ : String) :
    get_root_element xml = get_root_element xml ∧
    wrap_fragment xml name₁ = wrap_fragment xml name₁ ∧
    wrap_fragment xml name₁ = wrap_fragment xml name₂ :=
  ⟨rfl, rfl, rfl⟩

theorem matchesAt_succ_cons (x : Char) (cs : List Char) (i : Nat) :
    matchesAt (x :: cs) (i + 1) = matchesAt cs i := by
  unfold matchesAt
  rw [List.drop_succ_cons]

theorem tagAt_succ_cons (x : Char) (cs : List Char) (i : Nat) :
    tagAt (x :: cs) (i + 1) = tagAt cs i := by
  unfold tagAt
  rw [List.drop_succ_cons]

theorem find?_range_shift (p : Nat → Bool) (n : Nat) (h : p 0 = false) :
    (List.range (n + 1)).find? p
      = Option.map Nat.succ ((List.range n).find? (p ∘ Nat.succ)) := by
  rw [List.range_succ_eq_map, List.find?_cons_of_neg _ (by simp [h]), List.find?_map]

theorem firstTagByScan_cons_of_not_match (x : Char) (cs : List Char)
    (h0 : matchesAt (x :: cs) 0 = false) :
    firstTagByScan (x :: cs) = firstTagByScan cs := by
  unfold firstTagByScan
  rw [List.length_cons, find?_range_shift _ _ h0, Option.map_map]
  have hm : matchesAt (x :: cs) ∘ Nat.succ = matchesAt cs :=
    funext (fun i => by simpa [Nat.succ_eq_add_one] using matchesAt_succ_cons x cs i)
  have ht : tagAt (x :: cs) ∘ Nat.succ = tagAt cs :=
    funext (fun i => by simpa [Nat.succ_eq_add_one, Function.comp]
      using tagAt_succ_cons x cs i)
  rw [hm, ht]

theorem scanTag_eq_firstTagByScan (cs : List Char) : scanTag cs = firstTagByScan cs := by
  induction cs using scanTag.induct with
  | case1 => rfl
  | case2 c rest hc =>
    have h0 : matchesAt ('<' :: c :: rest) 0 = true := by
      unfold matchesAt
      simpa using hc
    unfold firstTagByScan
    rw [List.length_cons, List.range_succ_eq_map, List.find?_cons_of_pos _ h0]
    simp only [scanTag, if_pos hc, Option.map_some]
    rfl
  | case3 c rest hc ih =>
    have h0 : matchesAt ('<' :: c :: rest) 0 = false := by
      unfold matchesAt
      simpa using hc
    rw [show scanTag ('<' :: c :: rest) = scanTag (c :: rest) by
          simp only [scanTag]; rw [if_neg hc],
        ih, firstTagByScan_cons_of_not_match _ _ h0]
  | case4 head rest hpat ih =>
    have h0 : matchesAt (head :: rest) 0 = false := by
      unfold matchesAt
      simp only [List.drop_zero]
      split
      · rename_i c rest1 heq
        injection heq with heq1 heq2
        exact (hpat c rest1 heq1 heq2).elim
      · rfl
    have hstep : scanTag (head :: rest) = scanTag rest := by
      rw [scanTag.eq_def]
      split
      · rename_i heq; exact absurd heq (by simp)
      · rename_i c rest1 heq
        injection heq with heq1 heq2
        exact (hpat c rest1 heq1 heq2).elim
      · rename_i x rest1 heq
        injection heq with heq1 heq2
        rw [heq2]
    rw [hstep, ih, firstTagByScan_cons_of_not_match _ _ h0]

/-- C2 (counterexample): the classifier does not normalize to lowercase — the
fragment `<Pitch>` classifies as tag "Pitch", not "pitch". -/
theorem get_root_element_case_cex :
    get_root_element "<Pitch>" = some "Pitch" ∧ get_root_element "<Pitch>" ≠ some "pitch" := by
  decide

/-- C2 (amended): for every fragment text the classifier returns the tag of
the first element found by scanning for the first `<` followed by a letter,
extended by the maximal run of tag-name characters, case-insensitively; the
tag is returned in the original case of the fragment, without lowercase
normalization. -/
theorem get_root_element_first_match (xml : String) :
    get_root_element xml = (firstTagByScan xml.data).map String.mk := by
  rw [get_root_element, scanTag_eq_firstTagByScan]

theorem splitNl_ne_nil (cs : List Char) : splitNl cs ≠ [] := by
  induction cs with
  | nil => simp [splitNl]
  | cons c rest ih =>
    unfold splitNl
    split
    · simp
    · split
      · simp
      · simp

theorem no_nl_mem_splitNl (cs : List Char) : ∀ l ∈ splitNl cs, '\n' ∉ l := by
  induction cs with
  | nil =>
    intro l hl
    simp only [splitNl, List.mem_singleton] at hl
    subst hl
    simp
  | cons c rest ih =>
    intro l hl
    unfold splitNl at hl
    split at hl
    · rcases List.mem_cons.mp hl with rfl | hl
      · simp
      · exact ih l hl
    · rename_i hc
      split at hl
      · rename_i hsp
        exact absurd hsp (splitNl_ne_nil rest)
      · rename_i l0 ls hsp
        rcases List.mem_cons.mp hl with rfl | hl
        · intro hmem
          rcases List.mem_cons.mp hmem with heq | hmem
          · exact hc heq.symm
          · exact ih l0 (by rw [hsp]; exact List.mem_cons_self l0 ls) hmem
        · exact ih l (by rw [hsp]; exact List.mem_cons_of_mem l0 hl)

theorem splitNl_of_no_nl (l : List Char) (h : '\n' ∉ l) : splitNl l = [l] := by
  induction l with
  | nil => rfl
  | cons c rest ih =>
    have hc : c ≠ '\n' := by rintro rfl; exact h (List.mem_cons_self _ _)
    unfold splitNl
    rw [if_neg hc, ih (fun hm => h (List.mem_cons_of_mem _ hm))]

theorem splitNl_append_nl (l : List Char) (h : '\n' ∉ l) (cs : List Char) :
    splitNl (l ++ '\n' :: cs) = l :: splitNl cs := by
  induction l with
  | nil => simp [splitNl]
  | cons c rest ih =>
    have hc : c ≠ '\n' := by rintro rfl; exact h (List.mem_cons_self _ _)
    have ih' := ih (fun hm => h (List.mem_cons_of_mem _ hm))
    simp only [List.cons_append]
    conv_lhs => rw [splitNl]
    rw [if_neg hc, ih']

theorem splitNl_joinNl (ls : List (List Char)) (hne : ls ≠ [])
    (hno : ∀ l ∈ ls, '\n' ∉ l) : splitNl (joinNl ls) = ls := by
  induction ls with
  | nil => exact absurd rfl hne
  | cons l rest ih =>
    cases rest with
    | nil =>
      rw [show joinNl [l] = l from rfl]
      rw [splitNl_of_no_nl l (hno l (List.mem_cons_self _ _))]
    | cons l2 rest2 =>
      rw [show joinNl (l :: l2 :: rest2) = l ++ '\n' :: joinNl (l2 :: rest2) from rfl]
      rw [splitNl_append_nl l (hno l (List.mem_cons_self _ _))]
      rw [ih (by simp) (fun x hx => hno x (List.mem_cons_of_mem _ hx))]

theorem pyStripL_eq_nil_iff (l : List Char) :
    pyStripL l = [] ↔ ∀ c ∈ l, pyIsSpace c = true := by
  unfold pyStripL
  rw [List.reverse_eq_nil_iff, List.dropWhile_eq_nil_iff]
  constructor
  · intro h c hc
    rw [← List.takeWhile_append_dropWhile pyIsSpace l] at hc
    rcases List.mem_append.mp hc with hc | hc
    · exact List.mem_takeWhile_imp hc
    · exact h c (List.mem_reverse.mpr hc)
  · intro h x hx
    exact h x ((List.dropWhile_sublist pyIsSpace).mem (List.mem_reverse.mp hx))

theorem pyStripL_ne_nil_iff (l : List Char) :
    (pyStripL l ≠ []) ↔ (l.any (fun c => !(pyIsSpace c)) = true) := by
  rw [Ne, pyStripL_eq_nil_iff, List.any_eq_true]
  simp [not_forall]

/-- C8: for every text and every indent width, `indent_content` maps the
text's lines pointwise — every line containing at least one non-whitespace
character gains exactly a prefix of that many spaces, lines consisting only of
whitespace (including empty lines) are unchanged — and the lines are rejoined
with newlines, preserving the number of lines. -/
theorem indent_content_line_map (content : String) (n : Nat) :
    splitNl (indent_content content n).data
      = (splitNl content.data).map (fun line =>
          if line.any (fun c => !(pyIsSpace c)) = true then List.replicate n ' ' ++ line
          else line)
    ∧ (splitNl (indent_content content n).data).length = (splitNl content.data).length := by
  have key : splitNl (indent_content content n).data
      = (splitNl content.data).map (fun line =>
          if pyStripL line ≠ [] then List.replicate n ' ' ++ line else line) := by
    show splitNl (joinNl ((splitNl content.data).map _)) = _
    apply splitNl_joinNl
    · intro he
      exact splitNl_ne_nil content.data (by simpa using he)
    · intro l hl
      rcases List.mem_map.mp hl with ⟨l0, hl0, rfl⟩
      have hno := no_nl_mem_splitNl content.data l0 hl0
      by_cases hc : pyStripL l0 ≠ []
      · rw [if_pos hc]
        intro hmem
        rcases List.mem_append.mp hmem with hmem | hmem
        · exact absurd (List.eq_of_mem_replicate hmem) (by decide)
        · exact hno hmem
      · rw [if_neg hc]
        exact hno
  constructor
  · rw [key]
    apply List.map_congr_left
    intro l _
    exact if_congr (pyStripL_ne_nil_iff l) rfl rfl
  · rw [key, List.length_map]

theorem find?_matchesAt_none (cs : List Char)
    (h : ∀ i < cs.length, matchesAt cs i = false) :
    (List.range cs.length).find? (matchesAt cs) = none :=
  List.find?_eq_none.mpr (fun i hi => by simp [h i (List.mem_range.mp hi)])

/-- C10: a fragment text in which no `<` followed by a letter occurs is
classified to `none` — not an error — and `wrap_fragment` refuses it: a
classification failure is always skipped and never produces a document. -/
theorem classifier_failure_skipped (xml : String)
    (h : ∀ i < xml.data.length, matchesAt xml.data i = false) :
    get_root_element xml = none ∧ ∀ name, wrap_fragment xml name = none := by
  have hroot : get_root_element xml = none := by
    rw [get_root_element, scanTag_eq_firstTagByScan, firstTagByScan,
        find?_matchesAt_none xml.data h]
    rfl
  refine ⟨hroot, fun name => ?_⟩
  unfold wrap_fragment
  rw [hroot]

/-- C10 witness: a concrete fragment with a `<` that is not followed by a
letter, classified to `none` and refused. -/
theorem classifier_failure_skipped_witness :
    get_root_element "just text, 1 < 2" = none ∧
    wrap_fragment "just text, 1 < 2" "ex" = none :=
  ⟨(classifier_failure_skipped "just text, 1 < 2" (by decide)).1,
   (classifier_failure_skipped "just text, 1 < 2" (by decide)).2 "ex"⟩

end Tusk
